import Mathlib

/-!
Shallow embedding of the 1inch-rs swap client core
(`src/swap/types.rs`, `src/swap/swap.rs`, `src/approve/spender.rs`):
request builders with checked setters, the query-parameter assembler,
the HTTP response classifier, and the two JSON response decoders.
Rust machine integers (`u8`, `u16`, `usize`, `u128`) are embedded as `Nat`
(only comparisons and decimal rendering occur, never overflow); fallible
Rust functions returning `Result` are embedded as `Except`.
-/

/-! ## Builder error types (`src/swap/types.rs` lines 8-31) -/

/-- `SwapDetailsBuilderError`: errors when constructing `SwapDetails`. -/
inductive SwapDetailsBuilderError where
  | MissingField (field : String)
  | InvalidSlippage
  | InvalidFee
deriving Repr, DecidableEq

/-- `QuoteDetailsBuilderError`: errors when constructing `QuoteDetails`. -/
inductive QuoteDetailsBuilderError where
  | MissingField (field : String)
  | InvalidFee
deriving Repr, DecidableEq

/-! ## Request descriptions and builders (`src/swap/types.rs`) -/

/-- `SwapDetails` (`types.rs` lines 34-61): the validated legacy swap request. -/
structure SwapDetails where
  src : String
  dst : String
  amount : String
  «from» : String
  slippage : Nat
  fee : Option Nat
  protocols : Option String
  gas_price : Option String
  complexity_level : Option Nat
  parts : Option Nat
  main_route_parts : Option Nat
  gas_limit : Option Nat
  include_tokens_info : Option Bool
  include_protocols : Option Bool
  include_gas : Option Bool
  connector_tokens : Option String
  permit : Option String
  receiver : Option String
  referrer : Option String
  disable_estimate : Option Bool
  allow_partial_fill : Option Bool
deriving Repr, DecidableEq

/-- `SwapDetailsBuilder` (`types.rs` lines 64-91): the legacy accumulator. -/
structure SwapDetailsBuilder where
  src : Option String := none
  dst : Option String := none
  amount : Option String := none
  from_addr : Option String := none
  slippage : Option Nat := none
  fee : Option Nat := none
  protocols : Option String := none
  gas_price : Option String := none
  complexity_level : Option Nat := none
  parts : Option Nat := none
  main_route_parts : Option Nat := none
  gas_limit : Option Nat := none
  include_tokens_info : Option Bool := none
  include_protocols : Option Bool := none
  include_gas : Option Bool := none
  connector_tokens : Option String := none
  permit : Option String := none
  receiver : Option String := none
  referrer : Option String := none
  disable_estimate : Option Bool := none
  allow_partial_fill : Option Bool := none
deriving Repr, DecidableEq

/-- `SwapDetailsBuilder::new` (`types.rs` line 217): all fields uninitialized. -/
def SwapDetailsBuilder.new : SwapDetailsBuilder := {}

/-- `SwapDetailsBuilder::fee` (`types.rs` lines 246-252): checked fee setter. -/
def SwapDetailsBuilder.fee' (self : SwapDetailsBuilder) (fee : Nat) :
    Except SwapDetailsBuilderError SwapDetailsBuilder :=
  if fee > 3 then .error .InvalidFee
  else .ok { self with fee := some fee }

/-- `SwapDetailsBuilder::slippage` (`types.rs` lines 256-262): checked slippage setter. -/
def SwapDetailsBuilder.slippage' (self : SwapDetailsBuilder) (slippage : Nat) :
    Except SwapDetailsBuilderError SwapDetailsBuilder :=
  if slippage > 50 then .error .InvalidSlippage
  else .ok { self with slippage := some slippage }

/-- `SwapDetailsBuilder::build` (`types.rs` lines 267-292): the `ok_or(...)?`
chain evaluates the required fields in the order src, dst, amount, from_addr,
slippage; optional fields are passed through. -/
def SwapDetailsBuilder.build (self : SwapDetailsBuilder) :
    Except SwapDetailsBuilderError SwapDetails :=
  match self.src with
  | none => .error (.MissingField "src")
  | some src =>
  match self.dst with
  | none => .error (.MissingField "dst")
  | some dst =>
  match self.amount with
  | none => .error (.MissingField "amount")
  | some amount =>
  match self.from_addr with
  | none => .error (.MissingField "from_addr")
  | some from_addr =>
  match self.slippage with
  | none => .error (.MissingField "slippage")
  | some slippage =>
  .ok { src := src, dst := dst, amount := amount, «from» := from_addr,
        slippage := slippage,
        fee := self.fee, protocols := self.protocols,
        gas_price := self.gas_price, complexity_level := self.complexity_level,
        parts := self.parts, main_route_parts := self.main_route_parts,
        gas_limit := self.gas_limit,
        include_tokens_info := self.include_tokens_info,
        include_protocols := self.include_protocols,
        include_gas := self.include_gas,
        connector_tokens := self.connector_tokens, permit := self.permit,
        receiver := self.receiver, referrer := self.referrer,
        disable_estimate := self.disable_estimate,
        allow_partial_fill := self.allow_partial_fill }

/-- `SwapDetailsV6` (`types.rs` lines 408-438): the validated v6 swap request. -/
structure SwapDetailsV6 where
  src : String
  dst : String
  amount : String
  «from» : String
  origin : String
  slippage : Nat
  fee : Option Nat
  protocols : Option String
  gas_price : Option String
  complexity_level : Option Nat
  parts : Option Nat
  main_route_parts : Option Nat
  gas_limit : Option Nat
  include_tokens_info : Option Bool
  include_protocols : Option Bool
  include_gas : Option Bool
  connector_tokens : Option String
  permit : Option String
  receiver : Option String
  referrer : Option String
  disable_estimate : Option Bool
  allow_partial_fill : Option Bool
  use_permit2 : Option Bool
deriving Repr, DecidableEq

/-- `SwapDetailsV6Builder` (`types.rs` lines 441-471): the v6 accumulator. -/
structure SwapDetailsV6Builder where
  src : Option String := none
  dst : Option String := none
  amount : Option String := none
  «from» : Option String := none
  origin : Option String := none
  slippage : Option Nat := none
  fee : Option Nat := none
  protocols : Option String := none
  gas_price : Option String := none
  complexity_level : Option Nat := none
  parts : Option Nat := none
  main_route_parts : Option Nat := none
  gas_limit : Option Nat := none
  include_tokens_info : Option Bool := none
  include_protocols : Option Bool := none
  include_gas : Option Bool := none
  connector_tokens : Option String := none
  permit : Option String := none
  receiver : Option String := none
  referrer : Option String := none
  disable_estimate : Option Bool := none
  allow_partial_fill : Option Bool := none
  use_permit2 : Option Bool := none
deriving Repr, DecidableEq

/-- `SwapDetailsV6Builder::new` (`types.rs` line 474). -/
def SwapDetailsV6Builder.new : SwapDetailsV6Builder := {}

/-- `SwapDetailsV6Builder::fee` (`types.rs` lines 505-511): checked fee setter;
note its error type is `QuoteDetailsBuilderError`, not `SwapDetailsBuilderError`. -/
def SwapDetailsV6Builder.fee' (self : SwapDetailsV6Builder) (fee : Nat) :
    Except QuoteDetailsBuilderError SwapDetailsV6Builder :=
  if fee > 3 then .error .InvalidFee
  else .ok { self with fee := some fee }

/-- `SwapDetailsV6Builder::slippage` (`types.rs` lines 515-521): checked slippage setter. -/
def SwapDetailsV6Builder.slippage' (self : SwapDetailsV6Builder) (slippage : Nat) :
    Except SwapDetailsBuilderError SwapDetailsV6Builder :=
  if slippage > 50 then .error .InvalidSlippage
  else .ok { self with slippage := some slippage }

/-- `SwapDetailsV6Builder::build` (`types.rs` lines 526-553): required fields
checked in the order src, dst, amount, from, origin, slippage. -/
def SwapDetailsV6Builder.build (self : SwapDetailsV6Builder) :
    Except SwapDetailsBuilderError SwapDetailsV6 :=
  match self.src with
  | none => .error (.MissingField "src")
  | some src =>
  match self.dst with
  | none => .error (.MissingField "dst")
  | some dst =>
  match self.amount with
  | none => .error (.MissingField "amount")
  | some amount =>
  match self.«from» with
  | none => .error (.MissingField "from")
  | some fromv =>
  match self.origin with
  | none => .error (.MissingField "origin")
  | some origin =>
  match self.slippage with
  | none => .error (.MissingField "slippage")
  | some slippage =>
  .ok { src := src, dst := dst, amount := amount, «from» := fromv,
        origin := origin, slippage := slippage,
        fee := self.fee, protocols := self.protocols,
        gas_price := self.gas_price, complexity_level := self.complexity_level,
        parts := self.parts, main_route_parts := self.main_route_parts,
        gas_limit := self.gas_limit,
        include_tokens_info := self.include_tokens_info,
        include_protocols := self.include_protocols,
        include_gas := self.include_gas,
        connector_tokens := self.connector_tokens, permit := self.permit,
        receiver := self.receiver, referrer := self.referrer,
        disable_estimate := self.disable_estimate,
        allow_partial_fill := self.allow_partial_fill,
        use_permit2 := self.use_permit2 }

/-! ## Parameter assembler (`src/swap/swap.rs` lines 19-47 and 88-119) -/

/-- Modelled from the spec: `insert_optional_param` lives in
`src/utils/params.rs`, which is not present under `src/`; the spec describes
it as the operation "insert key=value if value is Some — absent optional
fields produce no pair at all (never an empty-string placeholder)", appending
to the mutable parameter vector. -/
def insert_optional_param (params : List (String × String)) (key : String)
    (value : Option String) : List (String × String) :=
  match value with
  | some v => params ++ [(key, v)]
  | none => params

/-- Rust's `bool::to_string`: `true`/`false`. -/
def boolStr (b : Bool) : String := if b then "true" else "false"

/-- Rust's unsigned-integer `to_string`: base-10. -/
def natStr (n : Nat) : String := toString n

/-- The parameter list assembled by `OneInchClient::swap`
(`swap.rs` lines 19-47): five required pairs in the order from, slippage,
src, dst, amount, then optional pairs via `insert_optional_param`. -/
def swapParams (details : SwapDetails) : List (String × String) :=
  let params : List (String × String) := [
    ("from", details.«from»),
    ("slippage", natStr details.slippage),
    ("src", details.src),
    ("dst", details.dst),
    ("amount", details.amount)]
  let params := insert_optional_param params "disableEstimate" (details.disable_estimate.map boolStr)
  let params := insert_optional_param params "allowPartialFill" (details.allow_partial_fill.map boolStr)
  let params := insert_optional_param params "includeGas" (details.include_gas.map boolStr)
  let params := insert_optional_param params "includeProtocols" (details.include_protocols.map boolStr)
  let params := insert_optional_param params "includeTokensInfo" (details.include_tokens_info.map boolStr)
  let params := insert_optional_param params "fee" (details.fee.map natStr)
  let params := insert_optional_param params "complexityLevel" (details.complexity_level.map natStr)
  let params := insert_optional_param params "parts" (details.parts.map natStr)
  let params := insert_optional_param params "mainRouteParts" (details.main_route_parts.map natStr)
  let params := insert_optional_param params "gasLimit" (details.gas_limit.map natStr)
  let params := insert_optional_param params "protocols" details.protocols
  let params := insert_optional_param params "gasPrice" details.gas_price
  let params := insert_optional_param params "connectorTokens" details.connector_tokens
  let params := insert_optional_param params "permit" details.permit
  let params := insert_optional_param params "receiver" details.receiver
  let params := insert_optional_param params "referrer" details.referrer
  params

/-- The parameter list assembled by `OneInchClient::swap_v6`
(`swap.rs` lines 88-119): six required pairs in the order from, slippage,
src, dst, amount, origin, then the same optional pairs plus `usePermit2`. -/
def swapV6Params (details : SwapDetailsV6) : List (String × String) :=
  let params : List (String × String) := [
    ("from", details.«from»),
    ("slippage", natStr details.slippage),
    ("src", details.src),
    ("dst", details.dst),
    ("amount", details.amount),
    ("origin", details.origin)]
  let params := insert_optional_param params "disableEstimate" (details.disable_estimate.map boolStr)
  let params := insert_optional_param params "allowPartialFill" (details.allow_partial_fill.map boolStr)
  let params := insert_optional_param params "includeGas" (details.include_gas.map boolStr)
  let params := insert_optional_param params "includeProtocols" (details.include_protocols.map boolStr)
  let params := insert_optional_param params "includeTokensInfo" (details.include_tokens_info.map boolStr)
  let params := insert_optional_param params "fee" (details.fee.map natStr)
  let params := insert_optional_param params "complexityLevel" (details.complexity_level.map natStr)
  let params := insert_optional_param params "parts" (details.parts.map natStr)
  let params := insert_optional_param params "mainRouteParts" (details.main_route_parts.map natStr)
  let params := insert_optional_param params "gasLimit" (details.gas_limit.map natStr)
  let params := insert_optional_param params "protocols" details.protocols
  let params := insert_optional_param params "gasPrice" details.gas_price
  let params := insert_optional_param params "connectorTokens" details.connector_tokens
  let params := insert_optional_param params "permit" details.permit
  let params := insert_optional_param params "receiver" details.receiver
  let params := insert_optional_param params "referrer" details.referrer
  let params := insert_optional_param params "usePermit2" (details.use_permit2.map boolStr)
  params

/-- All pairs carrying a given key, in order: the observation the assembler
claims are stated with. -/
def pairsFor (key : String) (params : List (String × String)) :
    List (String × String) :=
  params.filter (fun p => p.1 == key)

/-- The pairs contributed by one optional parameter: one pair when set,
none when unset. -/
def optPairList (key : String) (value : Option String) :
    List (String × String) :=
  match value with
  | some v => [(key, v)]
  | none => []

/-! ## JSON values and parsing

Model of the external `serde_json` crate as used by `swap.rs`: a JSON tree
type, a total fuel-indexed parser from text, and derived-style struct
decoders. Numerals are kept as their raw text (`f64` fields are never
computed with); error positions (line/column) are elided from messages. -/

/-- A parsed JSON value. Numbers keep their raw numeral text. -/
inductive JValue where
  | null
  | bool (b : Bool)
  | num (text : String)
  | str (s : String)
  | arr (elems : List JValue)
  | obj (fields : List (String × JValue))
deriving Repr, Inhabited

/-- Decode/parse failures, modelling `serde_json::Error` with positional
information elided. Note no variant carries the input text: the raw body
never appears in a rendered error message. -/
inductive DecodeError where
  | expectedValue
  | trailing
  | missingField (name : String)
  | invalidType (expected : String)
deriving Repr, DecidableEq

/-- The `Display` rendering of a decode error. -/
def DecodeError.render : DecodeError → String
  | .expectedValue => "expected value"
  | .trailing => "trailing characters"
  | .missingField n => "missing field " ++ n
  | .invalidType e => "invalid type, expected " ++ e

/-- JSON whitespace. -/
def isJsonWs (c : Char) : Bool := c = ' ' || c = '\n' || c = '\t' || c = '\r'

/-- Skip leading JSON whitespace. -/
def skipWs : List Char → List Char
  | [] => []
  | c :: rest => if isJsonWs c then skipWs rest else c :: rest

/-- Hexadecimal digit value. -/
def hexVal (c : Char) : Option Nat :=
  if '0' ≤ c ∧ c ≤ '9' then some (c.toNat - 48)
  else if 'a' ≤ c ∧ c ≤ 'f' then some (c.toNat - 87)
  else if 'A' ≤ c ∧ c ≤ 'F' then some (c.toNat - 55)
  else none

/-- Parse the contents of a JSON string after the opening quote, returning the
decoded characters and the input after the closing quote. Surrogate-pair
escapes are not modelled (they yield a parse failure). -/
def parseStrChars : List Char → Option (List Char × List Char)
  | [] => none
  | '"' :: rest => some ([], rest)
  | '\\' :: 'u' :: h1 :: h2 :: h3 :: h4 :: rest =>
    match hexVal h1, hexVal h2, hexVal h3, hexVal h4 with
    | some a, some b, some c, some d =>
      let n := ((a * 16 + b) * 16 + c) * 16 + d
      if 0xD800 ≤ n ∧ n < 0xE000 then none
      else match parseStrChars rest with
        | some (cs, r) => some (Char.ofNat n :: cs, r)
        | none => none
    | _, _, _, _ => none
  | '\\' :: e :: rest =>
    let esc : Option Char :=
      if e = '"' then some '"'
      else if e = '\\' then some '\\'
      else if e = '/' then some '/'
      else if e = 'b' then some '\x08'
      else if e = 'f' then some '\x0c'
      else if e = 'n' then some '\n'
      else if e = 'r' then some '\r'
      else if e = 't' then some '\t'
      else none
    match esc with
    | some c =>
      match parseStrChars rest with
      | some (cs, r) => some (c :: cs, r)
      | none => none
    | none => none
  | c :: rest =>
    if c.toNat < 32 then none
    else match parseStrChars rest with
      | some (cs, r) => some (c :: cs, r)
      | none => none

/-- Characters that may occur in a JSON numeral. -/
def numChar (c : Char) : Bool :=
  c.isDigit || c = '-' || c = '+' || c = '.' || c = 'e' || c = 'E'

/-- Take the longest prefix of numeral characters. -/
def takeNum : List Char → List Char × List Char
  | [] => ([], [])
  | c :: rest =>
    if numChar c then
      let (a, b) := takeNum rest
      (c :: a, b)
    else ([], c :: rest)

/-- Validate the exponent tail of a JSON numeral (after `e`/`E`). -/
def validExpTail (s : List Char) : Bool :=
  let s1 := match s with
    | '+' :: r => r
    | '-' :: r => r
    | r => r
  match s1 with
  | [] => false
  | c :: rest => c.isDigit && rest.all Char.isDigit

/-- Validate the optional exponent part of a JSON numeral. -/
def validExp : List Char → Bool
  | [] => true
  | 'e' :: r => validExpTail r
  | 'E' :: r => validExpTail r
  | _ => false

/-- Validate the optional fraction-then-exponent part of a JSON numeral. -/
def validFrac : List Char → Bool
  | '.' :: r =>
    match r with
    | c :: rest => c.isDigit && validExp (rest.dropWhile Char.isDigit)
    | [] => false
  | r => validExp r

/-- Validate a complete JSON numeral (`-?(0|[1-9][0-9]*)(\.[0-9]+)?([eE][+-]?[0-9]+)?`). -/
def validNum (s : List Char) : Bool :=
  let s1 := match s with
    | '-' :: r => r
    | r => r
  match s1 with
  | [] => false
  | '0' :: r => validFrac r
  | c :: r => c.isDigit && decide (c ≠ '0') && validFrac (r.dropWhile Char.isDigit)

mutual

/-- Fuel-indexed recursive-descent JSON value parser. -/
def parseVal : Nat → List Char → Option (JValue × List Char)
  | 0, _ => none
  | fuel + 1, s =>
    match skipWs s with
    | [] => none
    | 'n' :: 'u' :: 'l' :: 'l' :: rest => some (.null, rest)
    | 't' :: 'r' :: 'u' :: 'e' :: rest => some (.bool true, rest)
    | 'f' :: 'a' :: 'l' :: 's' :: 'e' :: rest => some (.bool false, rest)
    | '"' :: rest =>
      match parseStrChars rest with
      | some (cs, r) => some (.str ⟨cs⟩, r)
      | none => none
    | '[' :: rest =>
      match skipWs rest with
      | ']' :: r => some (.arr [], r)
      | _ => parseElems fuel rest []
    | '{' :: rest =>
      match skipWs rest with
      | '}' :: r => some (.obj [], r)
      | _ => parseMembers fuel rest []
    | c :: rest =>
      if c = '-' || c.isDigit then
        let (numCs, r) := takeNum (c :: rest)
        if validNum numCs then some (.num ⟨numCs⟩, r) else none
      else none

/-- Parse the elements of a non-empty JSON array (after `[`). -/
def parseElems : Nat → List Char → List JValue → Option (JValue × List Char)
  | 0, _, _ => none
  | fuel + 1, s, acc =>
    match parseVal fuel s with
    | none => none
    | some (v, r) =>
      match skipWs r with
      | ',' :: r2 => parseElems fuel r2 (acc ++ [v])
      | ']' :: r2 => some (.arr (acc ++ [v]), r2)
      | _ => none

/-- Parse the members of a non-empty JSON object (after `{`). -/
def parseMembers : Nat → List Char → List (String × JValue) →
    Option (JValue × List Char)
  | 0, _, _ => none
  | fuel + 1, s, acc =>
    match skipWs s with
    | '"' :: rest =>
      match parseStrChars rest with
      | none => none
      | some (keyCs, r) =>
        match skipWs r with
        | ':' :: r2 =>
          match parseVal fuel r2 with
          | none => none
          | some (v, r3) =>
            match skipWs r3 with
            | ',' :: r4 => parseMembers fuel r4 (acc ++ [(⟨keyCs⟩, v)])
            | '}' :: r4 => some (.obj (acc ++ [(⟨keyCs⟩, v)]), r4)
            | _ => none
        | _ => none
    | _ => none

end

/-- `serde_json::from_str`'s parsing stage: parse one JSON value and require
only whitespace after it. -/
def parseJson (s : String) : Except DecodeError JValue :=
  match parseVal (2 * s.length + 8) s.data with
  | some (v, rest) => if skipWs rest = [] then .ok v else .error .trailing
  | none => .error .expectedValue

/-! ## Struct decoders (model of the serde derives in `src/swap/types.rs`) -/

/-- First value stored under a key in a decoded JSON object. -/
def jGet (fields : List (String × JValue)) (name : String) : Option JValue :=
  match fields.find? (fun f => f.1 == name) with
  | some f => some f.2
  | none => none

/-- Decode a JSON string. -/
def decodeString : JValue → Except DecodeError String
  | .str s => .ok s
  | _ => .error (.invalidType "a string")

/-- Accumulate decimal digits; any non-digit character fails. -/
def decDigitsAux : List Char → Nat → Option Nat
  | [], acc => some acc
  | c :: r, acc =>
    if c.isDigit then decDigitsAux r (10 * acc + (c.toNat - 48)) else none

/-- Read a nonempty all-digit string as a natural number
(the semantics of `str::parse` on unsigned integers, sign excluded). -/
def strToNat? (s : String) : Option Nat :=
  match s.data with
  | [] => none
  | cs => decDigitsAux cs 0

/-- Decode an unsigned integer bounded by `bound` (serde's `u16`/`u128`). -/
def decodeUInt (bound : Nat) : JValue → Except DecodeError Nat
  | .num s =>
    match strToNat? s with
    | some n => if n < bound then .ok n else .error (.invalidType "integer in range")
    | none => .error (.invalidType "an unsigned integer")
  | _ => .error (.invalidType "an unsigned integer")

/-- Decode an `f64` field: any JSON number is accepted and kept as its raw
numeral text (float arithmetic is never performed by the client). -/
def decodeNumRaw : JValue → Except DecodeError String
  | .num s => .ok s
  | _ => .error (.invalidType "a number")

/-- Decode a required struct field: absent means `missing field`. -/
def decodeReq {α : Type} (dec : JValue → Except DecodeError α)
    (fields : List (String × JValue)) (name : String) :
    Except DecodeError α :=
  match jGet fields name with
  | none => .error (.missingField name)
  | some v => dec v

/-- Decode an `Option<T>` struct field: absent or `null` means `None`. -/
def decodeOpt {α : Type} (dec : JValue → Except DecodeError α)
    (fields : List (String × JValue)) (name : String) :
    Except DecodeError (Option α) :=
  match jGet fields name with
  | none => .ok none
  | some .null => .ok none
  | some v => (dec v).map some

/-- Decode every element of a list, stopping at the first failure. -/
def mapDecode {α : Type} (dec : JValue → Except DecodeError α) :
    List JValue → Except DecodeError (List α)
  | [] => .ok []
  | v :: rest =>
    match dec v with
    | .error e => .error e
    | .ok a => (mapDecode dec rest).map (a :: ·)

/-- Decode a JSON array elementwise (serde `Vec<T>`). -/
def decodeList {α : Type} (dec : JValue → Except DecodeError α) :
    JValue → Except DecodeError (List α)
  | .arr xs => mapDecode dec xs
  | _ => .error (.invalidType "a sequence")

/-- Modelled from the spec: `TokenInfo` lives in `src/common/token.rs`, which
is not present under `src/`; the spec describes it only as optional "token
metadata" whose absence is normal, so it is embedded as an opaque JSON value. -/
structure TokenInfo where
  raw : JValue
deriving Repr

/-- Modelled from the spec: decoder for the opaque token metadata. -/
def decodeTokenInfo (v : JValue) : Except DecodeError TokenInfo := .ok ⟨v⟩

/-- `SelectedProtocol` (`types.rs` lines 203-213). The `part : f64` field keeps
its raw numeral text. -/
structure SelectedProtocol where
  name : String
  part : String
  from_token_address : String
  to_token_address : String
deriving Repr

/-- serde decoder for `SelectedProtocol`. -/
def decodeSelectedProtocol : JValue → Except DecodeError SelectedProtocol
  | .obj fs => do
    let name ← decodeReq decodeString fs "name"
    let part ← decodeReq decodeNumRaw fs "part"
    let fta ← decodeReq decodeString fs "fromTokenAddress"
    let tta ← decodeReq decodeString fs "toTokenAddress"
    return { name := name, part := part, from_token_address := fta,
             to_token_address := tta }
  | _ => .error (.invalidType "struct SelectedProtocol")

/-- `SwapTranactionData` (`types.rs` lines 113-124): the embedded on-chain
call descriptor; `gas` is `u128`. -/
structure SwapTranactionData where
  «from» : String
  «to» : String
  data : String
  value : String
  gas_price : String
  gas : Nat
deriving Repr

/-- serde decoder for `SwapTranactionData` (field renames: `gasPrice`). -/
def decodeSwapTranactionData : JValue → Except DecodeError SwapTranactionData
  | .obj fs => do
    let f ← decodeReq decodeString fs "from"
    let t ← decodeReq decodeString fs "to"
    let d ← decodeReq decodeString fs "data"
    let v ← decodeReq decodeString fs "value"
    let gp ← decodeReq decodeString fs "gasPrice"
    let g ← decodeReq (decodeUInt (2 ^ 128)) fs "gas"
    return { «from» := f, «to» := t, data := d, value := v, gas_price := gp,
             gas := g }
  | _ => .error (.invalidType "struct SwapTranactionData")

/-- `SwapResponse` (`types.rs` lines 94-109): the legacy success shape, with
the output amount under the serde rename `toAmount`. -/
structure SwapResponse where
  from_token : Option TokenInfo
  to_token : Option TokenInfo
  to_amount : String
  protocols : Option (List (List (List SelectedProtocol)))
  transaction : SwapTranactionData
deriving Repr

/-- serde decoder for `SwapResponse` (renames: `fromToken`, `toToken`,
`toAmount`, `tx`); missing required fields are reported in declaration order. -/
def decodeSwapResponse : JValue → Except DecodeError SwapResponse
  | .obj fs => do
    let ft ← decodeOpt decodeTokenInfo fs "fromToken"
    let tt ← decodeOpt decodeTokenInfo fs "toToken"
    let ta ← decodeReq decodeString fs "toAmount"
    let ps ← decodeOpt (decodeList (decodeList (decodeList decodeSelectedProtocol))) fs "protocols"
    let tx ← decodeReq decodeSwapTranactionData fs "tx"
    return { from_token := ft, to_token := tt, to_amount := ta,
             protocols := ps, transaction := tx }
  | _ => .error (.invalidType "struct SwapResponse")

/-- `SwapV6Response` (`types.rs` lines 557-572): the v6 success shape, with
the output amount under the serde rename `dstAmount`. -/
structure SwapV6Response where
  from_token : Option TokenInfo
  to_token : Option TokenInfo
  dst_amount : String
  protocols : Option (List (List (List SelectedProtocol)))
  transaction : SwapTranactionData
deriving Repr

/-- serde decoder for `SwapV6Response` (renames: `fromToken`, `toToken`,
`dstAmount`, `tx`). -/
def decodeSwapV6Response : JValue → Except DecodeError SwapV6Response
  | .obj fs => do
    let ft ← decodeOpt decodeTokenInfo fs "fromToken"
    let tt ← decodeOpt decodeTokenInfo fs "toToken"
    let da ← decodeReq decodeString fs "dstAmount"
    let ps ← decodeOpt (decodeList (decodeList (decodeList decodeSelectedProtocol))) fs "protocols"
    let tx ← decodeReq decodeSwapTranactionData fs "tx"
    return { from_token := ft, to_token := tt, dst_amount := da,
             protocols := ps, transaction := tx }
  | _ => .error (.invalidType "struct SwapV6Response")

/-- `HttpExceptionMeta` (`types.rs` lines 193-201). -/
structure HttpExceptionMeta where
  type_field : String
  value : String
deriving Repr, DecidableEq

/-- serde decoder for `HttpExceptionMeta` (rename: `type`). -/
def decodeHttpExceptionMeta : JValue → Except DecodeError HttpExceptionMeta
  | .obj fs => do
    let t ← decodeReq decodeString fs "type"
    let v ← decodeReq decodeString fs "value"
    return { type_field := t, value := v }
  | _ => .error (.invalidType "struct HttpExceptionMeta")

/-- `SwapRequestError` (`types.rs` lines 168-186): the structured 400 payload;
`status_code` is `u16` (rename `statusCode`), `request_id` renames `requestId`. -/
structure SwapRequestError where
  error : String
  description : String
  status_code : Nat
  request_id : String
  meta : Option (List HttpExceptionMeta)
deriving Repr, DecidableEq

/-- serde decoder for `SwapRequestError`. -/
def decodeSwapRequestError : JValue → Except DecodeError SwapRequestError
  | .obj fs => do
    let e ← decodeReq decodeString fs "error"
    let d ← decodeReq decodeString fs "description"
    let sc ← decodeReq (decodeUInt (2 ^ 16)) fs "statusCode"
    let ri ← decodeReq decodeString fs "requestId"
    let m ← decodeOpt (decodeList decodeHttpExceptionMeta) fs "meta"
    return { error := e, description := d, status_code := sc,
             request_id := ri, meta := m }
  | _ => .error (.invalidType "struct SwapRequestError")

/-- `serde_json::from_str::<SwapRequestError>`. -/
def fromStrSwapRequestError (s : String) : Except DecodeError SwapRequestError :=
  match parseJson s with
  | .error e => .error e
  | .ok v => decodeSwapRequestError v

/-- `serde_json::from_str::<SwapResponse>` — also the decode stage of
`reqwest::Response::json::<SwapResponse>()`. -/
def fromStrSwapResponse (s : String) : Except DecodeError SwapResponse :=
  match parseJson s with
  | .error e => .error e
  | .ok v => decodeSwapResponse v

/-- `serde_json::from_str::<SwapV6Response>`. -/
def fromStrSwapV6Response (s : String) : Except DecodeError SwapV6Response :=
  match parseJson s with
  | .error e => .error e
  | .ok v => decodeSwapV6Response v

/-! ## HTTP response classification (`src/swap/swap.rs` lines 51-79, 123-157) -/

/-- A received HTTP response: status code plus the body-read outcome
(`none` models a failure to read the body as text). -/
structure RawResponse where
  status : Nat
  body : Option String
deriving Repr, DecidableEq

/-- `SwapError` (`types.rs` lines 131-161). The wrapped `reqwest::Error` and
its message are embedded as a `String`; the wrapped `serde_json::Error` as a
`DecodeError`. -/
inductive SwapError where
  | Network (message : String)
  | JsonParse (e : DecodeError)
  | SwapRequest (description : String) (error : String) (status_code : Nat)
      (request_id : String)
  | Other (message : String)
deriving Repr, DecidableEq

/-- The `Box<dyn Error>` returned by `swap`/`swap_v6`: either a `SwapError`
put in the box via `.into()`, or a bare `reqwest::Error` propagated by `?`
(as `swap_v6` does with `text?` on line 148). -/
inductive BoxError where
  | swap (e : SwapError)
  | reqwest (message : String)
deriving Repr, DecidableEq

/-- `reqwest::StatusCode::is_client_error`: 400-499. -/
def is_client_error (status : Nat) : Bool := 400 ≤ status && status ≤ 499

/-- `reqwest::StatusCode::is_server_error`: 500-599. -/
def is_server_error (status : Nat) : Bool := 500 ≤ status && status ≤ 599

/-- The response handling of `OneInchClient::swap` (`swap.rs` lines 56-79):
status 400 reads the body as text (`unwrap_or_default`) and tries the
structured `SwapRequestError` decode; any other 4xx/5xx is a generic `Other`
with the status; otherwise the body goes through
`response.json::<SwapResponse>()`, whose failures (body read or decode) are
wrapped as `SwapError::Network`. The status `Display` is modelled by its
numeric code. -/
def swapClassify (response : RawResponse) : Except BoxError SwapResponse :=
  if response.status = 400 then
    let error_body := response.body.getD ""
    match fromStrSwapRequestError error_body with
    | .ok err => .error (.swap (.SwapRequest err.description err.error
        err.status_code err.request_id))
    | .error e => .error (.swap (.Other
        ("Error parsing error response: " ++ e.render)))
  else if is_client_error response.status || is_server_error response.status then
    .error (.swap (.Other
      ("Server responded with error: " ++ toString response.status)))
  else
    match response.body with
    | none => .error (.swap (.Network "error decoding response body"))
    | some bodyText =>
      match fromStrSwapResponse bodyText with
      | .ok data => .ok data
      | .error e => .error (.swap (.Network
          ("error decoding response body: " ++ e.render)))

/-- The response handling of `OneInchClient::swap_v6` (`swap.rs` lines
128-157): the 400 and other-4xx/5xx branches are identical to `swap`;
otherwise the body is read as text (a read failure propagates the bare
`reqwest::Error` through `text?`) and parsed with
`serde_json::from_str::<SwapV6Response>`, whose failure is wrapped as
`SwapError::JsonParse`. -/
def swapV6Classify (response : RawResponse) : Except BoxError SwapV6Response :=
  if response.status = 400 then
    let error_body := response.body.getD ""
    match fromStrSwapRequestError error_body with
    | .ok err => .error (.swap (.SwapRequest err.description err.error
        err.status_code err.request_id))
    | .error e => .error (.swap (.Other
        ("Error parsing error response: " ++ e.render)))
  else if is_client_error response.status || is_server_error response.status then
    .error (.swap (.Other
      ("Server responded with error: " ++ toString response.status)))
  else
    match response.body with
    | none => .error (.reqwest "error reading body")
    | some text =>
      match fromStrSwapV6Response text with
      | .ok data => .ok data
      | .error e => .error (.swap (.JsonParse e))

/-! ## Full call pipelines

`swap`/`swap_v6` end to end: URL construction, the authorized GET, and
classification. `BASIC_URL`, `SWAP_API_VERSION` and `SWAP_V6_API_VERSION`
live in `src/consts.rs`, which is not present under `src/`; following the
spec's endpoint template `{base}/swap/{version}/{chain}/swap/` they are taken
as parameters. The network send is modelled by its outcome `world` (a
transport failure message, or a raw response). -/

/-- The outgoing GET request: URL, query pairs, and headers. -/
structure HttpRequest where
  url : String
  query : List (String × String)
  headers : List (String × String)
deriving Repr, DecidableEq

/-- Everything a call produces: the request it sent, the returned result,
and the `tracing` log lines it emitted. -/
structure PipelineOutcome (α : Type) where
  request : HttpRequest
  result : Except BoxError α
  log : List String

/-- `OneInchClient::swap` (`swap.rs` lines 15-80) end to end. The
`Authorization` header carries the raw credential (`self.token`); `swap`
emits no log lines. -/
def swapPipeline (token network_id baseUrl version : String)
    (details : SwapDetails) (world : Except String RawResponse) :
    PipelineOutcome SwapResponse :=
  let url := baseUrl ++ "/swap/" ++ version ++ "/" ++ network_id ++ "/swap/"
  { request := { url := url, query := swapParams details,
                 headers := [("Authorization", token)] },
    result := match world with
      | .error e => .error (.swap (.Network e))
      | .ok response => swapClassify response,
    log := [] }

/-- `OneInchClient::swap_v6` (`swap.rs` lines 83-158) end to end, including
its two `tracing::info!` lines: the request details at entry, and the raw
body-read outcome when a success-status response is received (`{:?}`
formatting is modelled by `reprStr`). -/
def swapV6Pipeline (token network_id baseUrl version : String)
    (details : SwapDetailsV6) (world : Except String RawResponse) :
    PipelineOutcome SwapV6Response :=
  let entryLog := "start oninch swap v6 with tails: " ++ reprStr details
  let url := baseUrl ++ "/swap/" ++ version ++ "/" ++ network_id ++ "/swap/"
  let request : HttpRequest :=
    { url := url, query := swapV6Params details,
      headers := [("Authorization", token)] }
  match world with
  | .error e =>
    { request := request, result := .error (.swap (.Network e)),
      log := [entryLog] }
  | .ok response =>
    { request := request,
      result := swapV6Classify response,
      log := [entryLog] ++
        (if response.status = 400 then []
         else if is_client_error response.status || is_server_error response.status then []
         else ["response info: " ++ reprStr response.body]) }

/-! ## URL query string encoding

Modelled from the spec: the query serialization performed by
`reqwest::Url::parse_with_params` and its inverse (form-urlencoded parsing)
live in the external `url` crate, outside this repository; the spec describes
them as "construct a URL with percent-encoded query parameters". They are
modelled at character level: alphanumerics and `*-._` are kept, space becomes
`+`, other characters with codepoint below 256 become `%XX`; the multi-byte
UTF-8 percent-encoding of higher codepoints is not modelled (they are kept
literal). -/

/-- Characters the form-urlencoded serializer leaves unescaped. -/
def urlUnreserved (c : Char) : Bool :=
  c.isAlphanum || c = '*' || c = '-' || c = '.' || c = '_'

/-- Uppercase hexadecimal digit. -/
def hexDigitChar : Nat → Char
  | 0 => '0' | 1 => '1' | 2 => '2' | 3 => '3' | 4 => '4'
  | 5 => '5' | 6 => '6' | 7 => '7' | 8 => '8' | 9 => '9'
  | 10 => 'A' | 11 => 'B' | 12 => 'C' | 13 => 'D' | 14 => 'E' | 15 => 'F'
  | _ => '0'

/-- Percent-encode one character. -/
def encChar (c : Char) : List Char :=
  if c = ' ' then ['+']
  else if urlUnreserved c then [c]
  else if c.toNat < 256 then
    ['%', hexDigitChar (c.toNat / 16), hexDigitChar (c.toNat % 16)]
  else [c]

/-- Percent-encode a query component. -/
def encC : List Char → List Char
  | [] => []
  | c :: rest => encChar c ++ encC rest

/-- Percent-decode a query component (`+` becomes space, `%XX` is decoded,
a malformed escape is kept literal). -/
def decC : List Char → List Char
  | [] => []
  | c :: rest =>
    if c = '+' then ' ' :: decC rest
    else if c = '%' then
      match rest with
      | h1 :: h2 :: rest2 =>
        match hexVal h1, hexVal h2 with
        | some a, some b => Char.ofNat (16 * a + b) :: decC rest2
        | _, _ => '%' :: decC (h1 :: h2 :: rest2)
      | [h1] => '%' :: decC [h1]
      | [] => ['%']
    else c :: decC rest

/-- Interleave a separator between components. -/
def joinC (sep : Char) : List (List Char) → List Char
  | [] => []
  | [p] => p
  | p :: ps => p ++ sep :: joinC sep ps

/-- Split at every occurrence of a separator. -/
def splitC (sep : Char) : List Char → List (List Char)
  | [] => [[]]
  | c :: rest =>
    match splitC sep rest with
    | [] => [[c]]
    | g :: gs => if c = sep then [] :: g :: gs else (c :: g) :: gs

/-- Serialize parameter pairs into the URL query string. -/
def encodeQuery (pairs : List (String × String)) : String :=
  ⟨joinC '&' (pairs.map fun p => encC p.1.data ++ '=' :: encC p.2.data)⟩

/-- Decode one `key=value` component: the key is everything before the first
`=`, the value everything after it. -/
def decodePart (part : List Char) : String × String :=
  match splitC '=' part with
  | [] => ("", "")
  | [k] => (⟨decC k⟩, "")
  | k :: rest => (⟨decC k⟩, ⟨decC (joinC '=' rest)⟩)

/-- Parse a query string back into parameter pairs. -/
def decodeQuery (s : String) : List (String × String) :=
  (splitC '&' s.data).map decodePart

/-! ## Query round-trip lemmas -/

theorem splitC_ne_nil (sep : Char) (l : List Char) : splitC sep l ≠ [] := by
  induction l with
  | nil => simp [splitC]
  | cons c rest ih =>
    cases h : splitC sep rest with
    | nil => exact absurd h ih
    | cons g gs =>
      simp only [splitC, h]
      split <;> simp

theorem splitC_not_mem (sep : Char) (l : List Char) (h : sep ∉ l) :
    splitC sep l = [l] := by
  induction l with
  | nil => rfl
  | cons c rest ih =>
    have hc : ¬ c = sep := fun e => h (by simp [e])
    have hr : sep ∉ rest := fun m => h (List.mem_cons_of_mem _ m)
    simp only [splitC, ih hr, hc, if_false]

theorem splitC_append (sep : Char) (xs ys : List Char) (h : sep ∉ xs) :
    splitC sep (xs ++ sep :: ys) = xs :: splitC sep ys := by
  induction xs with
  | nil =>
    cases h' : splitC sep ys with
    | nil => exact absurd h' (splitC_ne_nil sep ys)
    | cons g gs => simp [splitC, h']
  | cons c xs ih =>
    have hc : ¬ c = sep := fun e => h (by simp [e])
    have hx : sep ∉ xs := fun m => h (List.mem_cons_of_mem _ m)
    have hxs := ih hx
    rw [List.cons_append]
    have hu : splitC sep (c :: (xs ++ sep :: ys)) =
        match splitC sep (xs ++ sep :: ys) with
        | [] => [[c]]
        | g :: gs => if c = sep then [] :: g :: gs else (c :: g) :: gs := rfl
    rw [hu, hxs]
    simp [hc]

theorem splitC_joinC (sep : Char) (parts : List (List Char)) (hne : parts ≠ [])
    (h : ∀ p ∈ parts, sep ∉ p) : splitC sep (joinC sep parts) = parts := by
  induction parts with
  | nil => exact absurd rfl hne
  | cons p ps ih =>
    cases ps with
    | nil => exact splitC_not_mem sep p (h p (by simp))
    | cons q qs =>
      have hj : joinC sep (p :: q :: qs) = p ++ sep :: joinC sep (q :: qs) := rfl
      rw [hj, splitC_append sep p _ (h p (by simp)),
        ih (by simp) (fun r hr => h r (List.mem_cons_of_mem _ hr))]

theorem urlUnreserved_hexDigitChar (n : Nat) :
    urlUnreserved (hexDigitChar n) = true := by
  unfold hexDigitChar
  split <;> decide

theorem hexVal_hexDigitChar (n : Nat) (h : n < 16) :
    hexVal (hexDigitChar n) = some n := by
  interval_cases n <;> decide

theorem encChar_mem {c x : Char} (hx : x ∈ encChar c) :
    x = '+' ∨ urlUnreserved x = true ∨ x = '%' ∨ 255 < x.toNat := by
  unfold encChar at hx
  split_ifs at hx with h1 h2 h3
  · simp at hx; exact Or.inl hx
  · simp at hx; exact Or.inr (Or.inl (hx ▸ h2))
  · simp only [List.mem_cons, List.not_mem_nil, or_false] at hx
    rcases hx with h | h | h
    · exact Or.inr (Or.inr (Or.inl h))
    · exact h ▸ Or.inr (Or.inl (urlUnreserved_hexDigitChar _))
    · exact h ▸ Or.inr (Or.inl (urlUnreserved_hexDigitChar _))
  · simp at hx
    subst hx
    exact Or.inr (Or.inr (Or.inr (by omega)))

theorem amp_not_mem_encChar (c : Char) : '&' ∉ encChar c := by
  intro hm
  rcases encChar_mem hm with h | h | h | h
  · exact absurd h (by decide)
  · exact absurd h (by decide)
  · exact absurd h (by decide)
  · exact absurd h (by decide)

theorem eq_not_mem_encChar (c : Char) : '=' ∉ encChar c := by
  intro hm
  rcases encChar_mem hm with h | h | h | h
  · exact absurd h (by decide)
  · exact absurd h (by decide)
  · exact absurd h (by decide)
  · exact absurd h (by decide)

theorem amp_not_mem_encC (s : List Char) : '&' ∉ encC s := by
  induction s with
  | nil => simp [encC]
  | cons c rest ih =>
    simp only [encC, List.mem_append]
    rintro (h | h)
    · exact amp_not_mem_encChar c h
    · exact ih h

theorem eq_not_mem_encC (s : List Char) : '=' ∉ encC s := by
  induction s with
  | nil => simp [encC]
  | cons c rest ih =>
    simp only [encC, List.mem_append]
    rintro (h | h)
    · exact eq_not_mem_encChar c h
    · exact ih h

theorem decC_encC (s : List Char) : decC (encC s) = s := by
  induction s with
  | nil => rfl
  | cons c rest ih =>
    show decC (encChar c ++ encC rest) = c :: rest
    unfold encChar
    split_ifs with h1 h2 h3
    · subst h1
      rw [List.singleton_append, decC.eq_def]
      simp [ih]
    · have hp : ¬ c = '+' := by
        intro e; subst e; exact absurd h2 (by decide)
      have hpc : ¬ c = '%' := by
        intro e; subst e; exact absurd h2 (by decide)
      rw [List.singleton_append, decC.eq_def]
      simp [hp, hpc, ih]
    · have hdiv : c.toNat / 16 < 16 := by omega
      have hmod : c.toNat % 16 < 16 := Nat.mod_lt _ (by omega)
      rw [List.cons_append, List.cons_append, List.singleton_append,
        decC.eq_def]
      simp only [reduceCtorEq, if_false, reduceIte,
        hexVal_hexDigitChar _ hdiv, hexVal_hexDigitChar _ hmod]
      rw [Nat.div_add_mod c.toNat 16, Char.ofNat_toNat, ih]
      simp
    · have hp : ¬ c = '+' := by
        intro e; subst e; exact h3 (by decide)
      have hpc : ¬ c = '%' := by
        intro e; subst e; exact h3 (by decide)
      rw [List.singleton_append, decC.eq_def]
      simp [hp, hpc, ih]

theorem decodePart_enc (k v : String) :
    decodePart (encC k.data ++ '=' :: encC v.data) = (k, v) := by
  have h1 : splitC '=' (encC k.data ++ '=' :: encC v.data) =
      [encC k.data, encC v.data] := by
    rw [splitC_append _ _ _ (eq_not_mem_encC _),
      splitC_not_mem _ _ (eq_not_mem_encC _)]
  simp only [decodePart, h1, joinC, decC_encC]

theorem decodeQuery_encodeQuery (pairs : List (String × String))
    (h : pairs ≠ []) : decodeQuery (encodeQuery pairs) = pairs := by
  unfold decodeQuery encodeQuery
  rw [show (String.mk (joinC '&'
      (pairs.map fun p => encC p.1.data ++ '=' :: encC p.2.data))).data =
      joinC '&' (pairs.map fun p => encC p.1.data ++ '=' :: encC p.2.data)
      from rfl]
  rw [splitC_joinC '&' _ (by simpa using h) ?_]
  · rw [List.map_map]
    have hcong : ∀ p ∈ pairs,
        (decodePart ∘ fun p => encC p.1.data ++ '=' :: encC p.2.data) p = p := by
      intro p _
      exact decodePart_enc p.1 p.2
    rw [List.map_congr_left hcong]
    exact List.map_id pairs
  · intro p hp
    simp only [List.mem_map] at hp
    obtain ⟨q, _, rfl⟩ := hp
    intro hmem
    rcases List.mem_append.mp hmem with hm | hm
    · exact amp_not_mem_encC _ hm
    · rcases List.mem_cons.mp hm with hm' | hm'
      · exact absurd hm' (by decide)
      · exact amp_not_mem_encC _ hm'

/-! ## Assembler lemmas -/

theorem insert_optional_param_eq (ps : List (String × String)) (k : String)
    (v : Option String) : insert_optional_param ps k v = ps ++ optPairList k v := by
  cases v <;> simp [insert_optional_param, optPairList]

theorem pairsFor_append (k : String) (a b : List (String × String)) :
    pairsFor k (a ++ b) = pairsFor k a ++ pairsFor k b :=
  List.filter_append a b

@[simp] theorem pairsFor_nil (k : String) : pairsFor k [] = [] := rfl

@[simp] theorem pairsFor_cons (k a b : String) (l : List (String × String)) :
    pairsFor k ((a, b) :: l) =
      if (a == k) = true then (a, b) :: pairsFor k l else pairsFor k l := by
  simp [pairsFor, List.filter_cons]

@[simp] theorem pairsFor_optPairList_self (k : String) (v : Option String) :
    pairsFor k (optPairList k v) = optPairList k v := by
  cases v <;> simp [pairsFor, optPairList]

@[simp] theorem pairsFor_optPairList_ne (k k' : String) (v : Option String)
    (h : (k' == k) = false) : pairsFor k (optPairList k' v) = [] := by
  cases v <;> simp [pairsFor, optPairList, h]

theorem swapParams_decomp (d : SwapDetails) :
    swapParams d =
      [("from", d.«from»), ("slippage", natStr d.slippage), ("src", d.src),
        ("dst", d.dst), ("amount", d.amount)]
      ++ optPairList "disableEstimate" (d.disable_estimate.map boolStr)
      ++ optPairList "allowPartialFill" (d.allow_partial_fill.map boolStr)
      ++ optPairList "includeGas" (d.include_gas.map boolStr)
      ++ optPairList "includeProtocols" (d.include_protocols.map boolStr)
      ++ optPairList "includeTokensInfo" (d.include_tokens_info.map boolStr)
      ++ optPairList "fee" (d.fee.map natStr)
      ++ optPairList "complexityLevel" (d.complexity_level.map natStr)
      ++ optPairList "parts" (d.parts.map natStr)
      ++ optPairList "mainRouteParts" (d.main_route_parts.map natStr)
      ++ optPairList "gasLimit" (d.gas_limit.map natStr)
      ++ optPairList "protocols" d.protocols
      ++ optPairList "gasPrice" d.gas_price
      ++ optPairList "connectorTokens" d.connector_tokens
      ++ optPairList "permit" d.permit
      ++ optPairList "receiver" d.receiver
      ++ optPairList "referrer" d.referrer := by
  simp only [swapParams, insert_optional_param_eq]

theorem swapV6Params_decomp (d : SwapDetailsV6) :
    swapV6Params d =
      [("from", d.«from»), ("slippage", natStr d.slippage), ("src", d.src),
        ("dst", d.dst), ("amount", d.amount), ("origin", d.origin)]
      ++ optPairList "disableEstimate" (d.disable_estimate.map boolStr)
      ++ optPairList "allowPartialFill" (d.allow_partial_fill.map boolStr)
      ++ optPairList "includeGas" (d.include_gas.map boolStr)
      ++ optPairList "includeProtocols" (d.include_protocols.map boolStr)
      ++ optPairList "includeTokensInfo" (d.include_tokens_info.map boolStr)
      ++ optPairList "fee" (d.fee.map natStr)
      ++ optPairList "complexityLevel" (d.complexity_level.map natStr)
      ++ optPairList "parts" (d.parts.map natStr)
      ++ optPairList "mainRouteParts" (d.main_route_parts.map natStr)
      ++ optPairList "gasLimit" (d.gas_limit.map natStr)
      ++ optPairList "protocols" d.protocols
      ++ optPairList "gasPrice" d.gas_price
      ++ optPairList "connectorTokens" d.connector_tokens
      ++ optPairList "permit" d.permit
      ++ optPairList "receiver" d.receiver
      ++ optPairList "referrer" d.referrer
      ++ optPairList "usePermit2" (d.use_permit2.map boolStr) := by
  simp only [swapV6Params, insert_optional_param_eq]

theorem pairsFor_fee_swapParams (d : SwapDetails) :
    pairsFor "fee" (swapParams d) = optPairList "fee" (d.fee.map natStr) := by
  rw [swapParams_decomp]
  simp [pairsFor_append]

/-! ## Claim theorems -/

/-- C2: for both builders, `build` succeeds (yielding a request description)
if and only if all required fields are set (legacy: src, dst, amount,
from_addr, slippage; v6 additionally origin, checked between from and
slippage); when required fields are unset, `build` fails with a
missing-field error naming exactly the first missing field in that order. -/
theorem builder_build_first_missing :
    (∀ b : SwapDetailsBuilder,
      ((∃ d, b.build = .ok d) ↔
        b.src.isSome ∧ b.dst.isSome ∧ b.amount.isSome ∧ b.from_addr.isSome ∧
          b.slippage.isSome)
      ∧ (b.src = none → b.build = .error (.MissingField "src"))
      ∧ (b.src.isSome → b.dst = none → b.build = .error (.MissingField "dst"))
      ∧ (b.src.isSome → b.dst.isSome → b.amount = none →
          b.build = .error (.MissingField "amount"))
      ∧ (b.src.isSome → b.dst.isSome → b.amount.isSome → b.from_addr = none →
          b.build = .error (.MissingField "from_addr"))
      ∧ (b.src.isSome → b.dst.isSome → b.amount.isSome → b.from_addr.isSome →
          b.slippage = none → b.build = .error (.MissingField "slippage")))
    ∧ (∀ b : SwapDetailsV6Builder,
      ((∃ d, b.build = .ok d) ↔
        b.src.isSome ∧ b.dst.isSome ∧ b.amount.isSome ∧ b.«from».isSome ∧
          b.origin.isSome ∧ b.slippage.isSome)
      ∧ (b.src = none → b.build = .error (.MissingField "src"))
      ∧ (b.src.isSome → b.dst = none → b.build = .error (.MissingField "dst"))
      ∧ (b.src.isSome → b.dst.isSome → b.amount = none →
          b.build = .error (.MissingField "amount"))
      ∧ (b.src.isSome → b.dst.isSome → b.amount.isSome → b.«from» = none →
          b.build = .error (.MissingField "from"))
      ∧ (b.src.isSome → b.dst.isSome → b.amount.isSome → b.«from».isSome →
          b.origin = none → b.build = .error (.MissingField "origin"))
      ∧ (b.src.isSome → b.dst.isSome → b.amount.isSome → b.«from».isSome →
          b.origin.isSome → b.slippage = none →
          b.build = .error (.MissingField "slippage"))) := by
  constructor
  · rintro ⟨s, t, a, f, sl, o1, o2, o3, o4, o5, o6, o7, o8, o9, o10, o11,
      o12, o13, o14, o15, o16⟩
    cases s <;> cases t <;> cases a <;> cases f <;> cases sl <;>
      simp [SwapDetailsBuilder.build]
  · rintro ⟨s, t, a, f, og, sl, o1, o2, o3, o4, o5, o6, o7, o8, o9, o10, o11,
      o12, o13, o14, o15, o16, o17⟩
    cases s <;> cases t <;> cases a <;> cases f <;> cases og <;> cases sl <;>
      simp [SwapDetailsV6Builder.build]

/-- C2 witness: on the empty accumulators, `build` reports the first missing
field, `src`. -/
theorem builder_build_first_missing_witness :
    SwapDetailsBuilder.new.build = .error (.MissingField "src")
    ∧ SwapDetailsV6Builder.new.build = .error (.MissingField "src") :=
  ⟨(builder_build_first_missing.1 SwapDetailsBuilder.new).2.1 rfl,
   (builder_build_first_missing.2 SwapDetailsV6Builder.new).2.1 rfl⟩

/-- C3: for both builders, the checked slippage setter fails with the
slippage-range error exactly when slippage > 50, and the checked fee setter
fails with the fee-range error exactly when fee > 3; on success the returned
accumulator has just that field set and every other field unchanged (the
`{b with ...}` update); on failure no accumulator is returned at all, so
nothing is mutated. -/
theorem checked_setters_spec :
    (∀ (b : SwapDetailsBuilder) (n : Nat),
      (50 < n → b.slippage' n = .error .InvalidSlippage)
      ∧ (n ≤ 50 → b.slippage' n = .ok { b with slippage := some n }))
    ∧ (∀ (b : SwapDetailsBuilder) (n : Nat),
      (3 < n → b.fee' n = .error .InvalidFee)
      ∧ (n ≤ 3 → b.fee' n = .ok { b with fee := some n }))
    ∧ (∀ (b : SwapDetailsV6Builder) (n : Nat),
      (50 < n → b.slippage' n = .error .InvalidSlippage)
      ∧ (n ≤ 50 → b.slippage' n = .ok { b with slippage := some n }))
    ∧ (∀ (b : SwapDetailsV6Builder) (n : Nat),
      (3 < n → b.fee' n = .error .InvalidFee)
      ∧ (n ≤ 3 → b.fee' n = .ok { b with fee := some n })) := by
  refine ⟨fun b n => ⟨fun h => ?_, fun h => ?_⟩, fun b n => ⟨fun h => ?_, fun h => ?_⟩,
    fun b n => ⟨fun h => ?_, fun h => ?_⟩, fun b n => ⟨fun h => ?_, fun h => ?_⟩⟩ <;>
    simp [SwapDetailsBuilder.slippage', SwapDetailsBuilder.fee',
      SwapDetailsV6Builder.slippage', SwapDetailsV6Builder.fee', h,
      Nat.not_lt.mpr h]

/-- C3 witness: the setters at the range boundaries on the empty builders. -/
theorem checked_setters_spec_witness :
    SwapDetailsBuilder.new.slippage' 51 = .error .InvalidSlippage
    ∧ SwapDetailsBuilder.new.slippage' 50 =
        .ok { SwapDetailsBuilder.new with slippage := some 50 }
    ∧ SwapDetailsBuilder.new.fee' 4 = .error .InvalidFee
    ∧ SwapDetailsBuilder.new.fee' 3 =
        .ok { SwapDetailsBuilder.new with fee := some 3 }
    ∧ SwapDetailsV6Builder.new.slippage' 51 = .error .InvalidSlippage
    ∧ SwapDetailsV6Builder.new.slippage' 50 =
        .ok { SwapDetailsV6Builder.new with slippage := some 50 }
    ∧ SwapDetailsV6Builder.new.fee' 4 = .error .InvalidFee
    ∧ SwapDetailsV6Builder.new.fee' 3 =
        .ok { SwapDetailsV6Builder.new with fee := some 3 } :=
  ⟨(checked_setters_spec.1 _ 51).1 (by decide),
   (checked_setters_spec.1 _ 50).2 (by decide),
   (checked_setters_spec.2.1 _ 4).1 (by decide),
   (checked_setters_spec.2.1 _ 3).2 (by decide),
   (checked_setters_spec.2.2.1 _ 51).1 (by decide),
   (checked_setters_spec.2.2.1 _ 50).2 (by decide),
   (checked_setters_spec.2.2.2 _ 4).1 (by decide),
   (checked_setters_spec.2.2.2 _ 3).2 (by decide)⟩

/-- C10: the v6 builder's checked fee setter fails with the quote builder's
error type (`QuoteDetailsBuilderError::InvalidFee`), while its slippage
setter and `build` fail with `SwapDetailsBuilderError` values, so the three
failure paths do not share one error type. -/
theorem v6_builder_error_types :
    (∀ (b : SwapDetailsV6Builder) (f : Nat), 3 < f →
      b.fee' f = Except.error QuoteDetailsBuilderError.InvalidFee)
    ∧ (∀ (b : SwapDetailsV6Builder) (s : Nat), 50 < s →
      b.slippage' s = Except.error SwapDetailsBuilderError.InvalidSlippage)
    ∧ (∀ b : SwapDetailsV6Builder, b.src = none →
      b.build = Except.error (SwapDetailsBuilderError.MissingField "src")) := by
  refine ⟨fun b f h => ?_, fun b s h => ?_, fun b h => ?_⟩
  · simp [SwapDetailsV6Builder.fee', h]
  · simp [SwapDetailsV6Builder.slippage', h]
  · rw [SwapDetailsV6Builder.build, h]

/-- C10 witness: the out-of-range setters and the empty build at concrete
inputs. -/
theorem v6_builder_error_types_witness :
    SwapDetailsV6Builder.new.fee' 4 =
      Except.error QuoteDetailsBuilderError.InvalidFee
    ∧ SwapDetailsV6Builder.new.slippage' 51 =
      Except.error SwapDetailsBuilderError.InvalidSlippage
    ∧ SwapDetailsV6Builder.new.build =
      Except.error (SwapDetailsBuilderError.MissingField "src") :=
  ⟨v6_builder_error_types.1 _ 4 (by decide),
   v6_builder_error_types.2.1 _ 51 (by decide),
   v6_builder_error_types.2.2 _ rfl⟩

/-- C4: the assembler emits the required pairs unconditionally in the fixed
order from, slippage, src, dst, amount (v6 additionally origin last); every
unset optional field contributes no pair at all, and every set optional field
contributes exactly one pair whose value is the canonical decimal or
`true`/`false` rendering; and the concrete legacy request
(src=A, dst=B, amount=1000, from=0xabc, slippage=5, no optionals)
assembles to exactly its five required pairs in that order. -/
theorem assembler_params_spec :
    (∀ d : SwapDetails,
      (swapParams d).take 5 =
        [("from", d.«from»), ("slippage", natStr d.slippage), ("src", d.src),
          ("dst", d.dst), ("amount", d.amount)]
      ∧ pairsFor "disableEstimate" (swapParams d) =
          optPairList "disableEstimate" (d.disable_estimate.map boolStr)
      ∧ pairsFor "allowPartialFill" (swapParams d) =
          optPairList "allowPartialFill" (d.allow_partial_fill.map boolStr)
      ∧ pairsFor "includeGas" (swapParams d) =
          optPairList "includeGas" (d.include_gas.map boolStr)
      ∧ pairsFor "includeProtocols" (swapParams d) =
          optPairList "includeProtocols" (d.include_protocols.map boolStr)
      ∧ pairsFor "includeTokensInfo" (swapParams d) =
          optPairList "includeTokensInfo" (d.include_tokens_info.map boolStr)
      ∧ pairsFor "fee" (swapParams d) = optPairList "fee" (d.fee.map natStr)
      ∧ pairsFor "complexityLevel" (swapParams d) =
          optPairList "complexityLevel" (d.complexity_level.map natStr)
      ∧ pairsFor "parts" (swapParams d) =
          optPairList "parts" (d.parts.map natStr)
      ∧ pairsFor "mainRouteParts" (swapParams d) =
          optPairList "mainRouteParts" (d.main_route_parts.map natStr)
      ∧ pairsFor "gasLimit" (swapParams d) =
          optPairList "gasLimit" (d.gas_limit.map natStr)
      ∧ pairsFor "protocols" (swapParams d) =
          optPairList "protocols" d.protocols
      ∧ pairsFor "gasPrice" (swapParams d) =
          optPairList "gasPrice" d.gas_price
      ∧ pairsFor "connectorTokens" (swapParams d) =
          optPairList "connectorTokens" d.connector_tokens
      ∧ pairsFor "permit" (swapParams d) = optPairList "permit" d.permit
      ∧ pairsFor "receiver" (swapParams d) = optPairList "receiver" d.receiver
      ∧ pairsFor "referrer" (swapParams d) = optPairList "referrer" d.referrer)
    ∧ (∀ d : SwapDetailsV6,
      (swapV6Params d).take 6 =
        [("from", d.«from»), ("slippage", natStr d.slippage), ("src", d.src),
          ("dst", d.dst), ("amount", d.amount), ("origin", d.origin)]
      ∧ pairsFor "disableEstimate" (swapV6Params d) =
          optPairList "disableEstimate" (d.disable_estimate.map boolStr)
      ∧ pairsFor "allowPartialFill" (swapV6Params d) =
          optPairList "allowPartialFill" (d.allow_partial_fill.map boolStr)
      ∧ pairsFor "includeGas" (swapV6Params d) =
          optPairList "includeGas" (d.include_gas.map boolStr)
      ∧ pairsFor "includeProtocols" (swapV6Params d) =
          optPairList "includeProtocols" (d.include_protocols.map boolStr)
      ∧ pairsFor "includeTokensInfo" (swapV6Params d) =
          optPairList "includeTokensInfo" (d.include_tokens_info.map boolStr)
      ∧ pairsFor "fee" (swapV6Params d) = optPairList "fee" (d.fee.map natStr)
      ∧ pairsFor "complexityLevel" (swapV6Params d) =
          optPairList "complexityLevel" (d.complexity_level.map natStr)
      ∧ pairsFor "parts" (swapV6Params d) =
          optPairList "parts" (d.parts.map natStr)
      ∧ pairsFor "mainRouteParts" (swapV6Params d) =
          optPairList "mainRouteParts" (d.main_route_parts.map natStr)
      ∧ pairsFor "gasLimit" (swapV6Params d) =
          optPairList "gasLimit" (d.gas_limit.map natStr)
      ∧ pairsFor "protocols" (swapV6Params d) =
          optPairList "protocols" d.protocols
      ∧ pairsFor "gasPrice" (swapV6Params d) =
          optPairList "gasPrice" d.gas_price
      ∧ pairsFor "connectorTokens" (swapV6Params d) =
          optPairList "connectorTokens" d.connector_tokens
      ∧ pairsFor "permit" (swapV6Params d) = optPairList "permit" d.permit
      ∧ pairsFor "receiver" (swapV6Params d) =
          optPairList "receiver" d.receiver
      ∧ pairsFor "referrer" (swapV6Params d) =
          optPairList "referrer" d.referrer
      ∧ pairsFor "usePermit2" (swapV6Params d) =
          optPairList "usePermit2" (d.use_permit2.map boolStr))
    ∧ swapParams ⟨"A", "B", "1000", "0xabc", 5, none, none, none, none, none,
        none, none, none, none, none, none, none, none, none, none, none⟩ =
      [("from", "0xabc"), ("slippage", "5"), ("src", "A"), ("dst", "B"),
        ("amount", "1000")] := by
  refine ⟨fun d => ?_, fun d => ?_, by decide⟩
  · refine ⟨?_, ?_, ?_, ?_, ?_, ?_, ?_, ?_, ?_, ?_, ?_, ?_, ?_, ?_, ?_, ?_, ?_⟩ <;>
      (rw [swapParams_decomp]; simp [pairsFor_append])
  · refine ⟨?_, ?_, ?_, ?_, ?_, ?_, ?_, ?_, ?_, ?_, ?_, ?_, ?_, ?_, ?_, ?_, ?_, ?_⟩ <;>
      (rw [swapV6Params_decomp]; simp [pairsFor_append])

/-- C7: serializing an assembled parameter list into the URL query string and
parsing that query string back recovers the parameter list exactly — in
particular every set optional field reappears with its value, no unset
optional field appears, and no extra keys are introduced. -/
theorem query_roundtrip_spec :
    (∀ d : SwapDetails,
      decodeQuery (encodeQuery (swapParams d)) = swapParams d)
    ∧ (∀ d : SwapDetailsV6,
      decodeQuery (encodeQuery (swapV6Params d)) = swapV6Params d) := by
  constructor
  · intro d
    refine decodeQuery_encodeQuery _ ?_
    rw [swapParams_decomp]
    simp
  · intro d
    refine decodeQuery_encodeQuery _ ?_
    rw [swapV6Params_decomp]
    simp

/-- C1 counterexample: on a status-400 response whose body `"oops"` fails the
structured decode, the classifier returns a generic error embedding only the
parse failure — the raw body does not occur in the message, so the failure is
not "embedding the parse failure and the raw body". -/
theorem classifier_400_no_raw_body :
    swapClassify ⟨400, some "oops"⟩ =
      .error (.swap (.Other "Error parsing error response: expected value"))
    ∧ swapV6Classify ⟨400, some "oops"⟩ =
      .error (.swap (.Other "Error parsing error response: expected value"))
    ∧ ¬ ("oops".data <:+:
        ("Error parsing error response: expected value").data) :=
  ⟨rfl, rfl, by decide⟩

/-- C1 (amended): for every raw response, `swap` and `swap_v6` classify in
this order — status exactly 400 reads the body as text (empty on read
failure) and attempts the structured decode, failing with a swap-request
error carrying the four decoded fields on success and otherwise with a
generic error embedding the parse failure only (not the raw body), with no
secondary decode; any other 4xx or 5xx fails with a generic error embedding
the numeric status, the body unparsed; otherwise the body goes to the
version's response decoder. -/
theorem classifier_order_spec (status : Nat) (body : Option String) :
    (status = 400 →
      (∀ e, fromStrSwapRequestError (body.getD "") = .ok e →
        swapClassify ⟨status, body⟩ =
          .error (.swap (.SwapRequest e.description e.error e.status_code
            e.request_id))
        ∧ swapV6Classify ⟨status, body⟩ =
          .error (.swap (.SwapRequest e.description e.error e.status_code
            e.request_id)))
      ∧ (∀ pe, fromStrSwapRequestError (body.getD "") = .error pe →
        swapClassify ⟨status, body⟩ =
          .error (.swap (.Other ("Error parsing error response: " ++ pe.render)))
        ∧ swapV6Classify ⟨status, body⟩ =
          .error (.swap (.Other ("Error parsing error response: " ++ pe.render)))))
    ∧ (status ≠ 400 → (is_client_error status || is_server_error status) = true →
      swapClassify ⟨status, body⟩ =
        .error (.swap (.Other ("Server responded with error: " ++ toString status)))
      ∧ swapV6Classify ⟨status, body⟩ =
        .error (.swap (.Other ("Server responded with error: " ++ toString status))))
    ∧ (status ≠ 400 → (is_client_error status || is_server_error status) = false →
      ∀ text, body = some text →
        swapClassify ⟨status, body⟩ =
          (match fromStrSwapResponse text with
            | .ok data => .ok data
            | .error e => .error (.swap (.Network
                ("error decoding response body: " ++ e.render))))
        ∧ swapV6Classify ⟨status, body⟩ =
          (match fromStrSwapV6Response text with
            | .ok data => .ok data
            | .error e => .error (.swap (.JsonParse e)))) := by
  refine ⟨fun h400 => ⟨fun e he => ?_, fun pe hpe => ?_⟩,
    fun hne hcs => ?_, fun hne hcs text hbody => ?_⟩
  · subst h400
    constructor <;> simp [swapClassify, swapV6Classify, he]
  · subst h400
    constructor <;> simp [swapClassify, swapV6Classify, hpe]
  · constructor <;> simp [swapClassify, swapV6Classify, hne, hcs]
  · subst hbody
    refine ⟨?_, ?_⟩
    · show (if status = 400 then _ else _) = _
      rw [if_neg hne, if_neg (by simp [hcs])]
    · show (if status = 400 then _ else _) = _
      rw [if_neg hne, if_neg (by simp [hcs])]

/-- C1 witness: a 400 response with a well-formed structured error body
yields the swap-request error with the four decoded fields, and a 404
response yields the generic status error. -/
theorem classifier_order_spec_witness :
    swapClassify ⟨400,
      some "\x7b\"error\":\"Bad Request\",\"description\":\"insufficient liquidity\",\"statusCode\":400,\"requestId\":\"req-1\"\x7d"⟩ =
      .error (.swap (.SwapRequest "insufficient liquidity" "Bad Request" 400 "req-1"))
    ∧ swapClassify ⟨404, some ""⟩ =
      .error (.swap (.Other ("Server responded with error: " ++ toString 404))) :=
  ⟨((classifier_order_spec 400
      (some "\x7b\"error\":\"Bad Request\",\"description\":\"insufficient liquidity\",\"statusCode\":400,\"requestId\":\"req-1\"\x7d")).1
      rfl).1 ⟨"Bad Request", "insufficient liquidity", 400, "req-1", none⟩ rfl |>.1,
   ((classifier_order_spec 404 (some "")).2.1 (by decide) (by decide)).1⟩

/-- C9: the status-400 branch is total for both versions — a body-read
failure is replaced by the empty string, so the result is always either a
swap-request error or a generic `Other` parse-failure error, never a network
error; in particular an unreadable body yields the `Other` error for the
failed parse of the empty string. -/
theorem status400_total_spec (r : RawResponse) (h : r.status = 400) :
    ((∃ desc err sc rid, swapClassify r =
        .error (.swap (.SwapRequest desc err sc rid)))
      ∨ (∃ m, swapClassify r = .error (.swap (.Other m))))
    ∧ ((∃ desc err sc rid, swapV6Classify r =
        .error (.swap (.SwapRequest desc err sc rid)))
      ∨ (∃ m, swapV6Classify r = .error (.swap (.Other m))))
    ∧ (r.body = none →
      swapClassify r =
        .error (.swap (.Other "Error parsing error response: expected value"))
      ∧ swapV6Classify r =
        .error (.swap (.Other "Error parsing error response: expected value"))) := by
  obtain ⟨status, body⟩ := r
  simp only at h
  subst h
  refine ⟨?_, ?_, fun hb => ?_⟩
  · cases he : fromStrSwapRequestError (body.getD "") with
    | ok e =>
      exact Or.inl ⟨e.description, e.error, e.status_code, e.request_id,
        by simp [swapClassify, he]⟩
    | error pe =>
      exact Or.inr ⟨"Error parsing error response: " ++ pe.render,
        by simp [swapClassify, he]⟩
  · cases he : fromStrSwapRequestError (body.getD "") with
    | ok e =>
      exact Or.inl ⟨e.description, e.error, e.status_code, e.request_id,
        by simp [swapV6Classify, he]⟩
    | error pe =>
      exact Or.inr ⟨"Error parsing error response: " ++ pe.render,
        by simp [swapV6Classify, he]⟩
  · simp only at hb
    subst hb
    exact ⟨rfl, rfl⟩

/-- C9 witness: a 400 response whose body could not be read at all. -/
theorem status400_total_spec_witness :
    swapClassify ⟨400, none⟩ =
      .error (.swap (.Other "Error parsing error response: expected value"))
    ∧ swapV6Classify ⟨400, none⟩ =
      .error (.swap (.Other "Error parsing error response: expected value")) :=
  (status400_total_spec ⟨400, none⟩ rfl).2.2 rfl

/-- C5: on a success status whose body does not decode, `swap_v6` returns the
JSON-parsing error, but legacy `swap` wraps the very same decode failure as
`SwapError::Network` — contradicting the documented role of
`SwapError::JsonParse` ("the server's response cannot be correctly
deserialized from JSON") and leaving legacy callers unable to distinguish a
shape mismatch from an unreachable server. -/
theorem success_decode_failure_error_kinds :
    swapClassify ⟨200, some "{}"⟩ =
      .error (.swap (.Network "error decoding response body: missing field toAmount"))
    ∧ swapV6Classify ⟨200, some "{}"⟩ =
      .error (.swap (.JsonParse (.missingField "dstAmount")))
    ∧ (∀ m, swapClassify ⟨200, some "{}"⟩ ≠ .error (.swap (.JsonParse m))) :=
  ⟨rfl, rfl, fun _ h => by
    rw [show swapClassify ⟨200, some "{}"⟩ =
      .error (.swap (.Network "error decoding response body: missing field toAmount"))
      from rfl] at h
    simp at h⟩

/-- C6: a success body carrying the output amount as `dstAmount` (with a
well-formed embedded `tx` object) decodes through the v6 decoder and fails
through the legacy decoder, which requires `toAmount`; symmetrically the
`toAmount` body fails through the v6 decoder — the two decoders are not
interchangeable. -/
theorem response_decoders_not_interchangeable :
    fromStrSwapV6Response
      "\x7b\"dstAmount\":\"999\",\"tx\":\x7b\"from\":\"0xabc\",\"to\":\"0xdef\",\"data\":\"0x\",\"value\":\"0\",\"gasPrice\":\"1\",\"gas\":21000\x7d\x7d" =
      .ok ⟨none, none, "999", none, ⟨"0xabc", "0xdef", "0x", "0", "1", 21000⟩⟩
    ∧ fromStrSwapResponse
      "\x7b\"dstAmount\":\"999\",\"tx\":\x7b\"from\":\"0xabc\",\"to\":\"0xdef\",\"data\":\"0x\",\"value\":\"0\",\"gasPrice\":\"1\",\"gas\":21000\x7d\x7d" =
      .error (.missingField "toAmount")
    ∧ fromStrSwapResponse
      "\x7b\"toAmount\":\"999\",\"tx\":\x7b\"from\":\"0xabc\",\"to\":\"0xdef\",\"data\":\"0x\",\"value\":\"0\",\"gasPrice\":\"1\",\"gas\":21000\x7d\x7d" =
      .ok ⟨none, none, "999", none, ⟨"0xabc", "0xdef", "0x", "0", "1", 21000⟩⟩
    ∧ fromStrSwapV6Response
      "\x7b\"toAmount\":\"999\",\"tx\":\x7b\"from\":\"0xabc\",\"to\":\"0xdef\",\"data\":\"0x\",\"value\":\"0\",\"gasPrice\":\"1\",\"gas\":21000\x7d\x7d" =
      .error (.missingField "dstAmount") :=
  ⟨rfl, rfl, rfl, rfl⟩

/-- C8: the authorization credential flows only into the request's
`Authorization` header; the returned result (on every error path:
construction, network, swap-request, JSON-parsing, generic) and the emitted
log lines are identical for two runs that differ only in the credential. -/
theorem credential_noninterference (t₁ t₂ network baseUrl ver : String)
    (d : SwapDetails) (d6 : SwapDetailsV6) (w : Except String RawResponse) :
    (swapPipeline t₁ network baseUrl ver d w).result =
      (swapPipeline t₂ network baseUrl ver d w).result
    ∧ (swapPipeline t₁ network baseUrl ver d w).log =
      (swapPipeline t₂ network baseUrl ver d w).log
    ∧ (swapV6Pipeline t₁ network baseUrl ver d6 w).result =
      (swapV6Pipeline t₂ network baseUrl ver d6 w).result
    ∧ (swapV6Pipeline t₁ network baseUrl ver d6 w).log =
      (swapV6Pipeline t₂ network baseUrl ver d6 w).log
    ∧ (swapPipeline t₁ network baseUrl ver d w).request.headers =
      [("Authorization", t₁)]
    ∧ (swapV6Pipeline t₁ network baseUrl ver d6 w).request.headers =
      [("Authorization", t₁)] := by
  cases w <;> exact ⟨rfl, rfl, rfl, rfl, rfl, rfl⟩
